import Mathlib

/-!
Shallow embedding of the scoring and recommendation engine of the
AI-Ready quiz app (`logic.py` and `app.py`) together with proofs about
the specification claims.

Numeric modelling: Python integers become `ℤ`, Python floats become `ℚ`
with the source's decimal literals read exactly (0.9 = 9/10 …).  For the
quantities appearing here (sums of at most ten values in [0,100] divided
by small constants) IEEE double arithmetic is exact at every rounding
boundary, so Python's `round` coincides with round-half-to-even of the
exact rational value, which is what `roundHalfEven` computes.
-/

/-- Round-half-to-even on rationals: the behaviour of Python's built-in
`round(x)` (banker's rounding). -/
def roundHalfEven (q : ℚ) : ℤ :=
  let f : ℤ := ⌊q⌋
  let frac : ℚ := q - (f : ℚ)
  if frac < 1/2 then f
  else if 1/2 < frac then f + 1
  else if f % 2 = 0 then f else f + 1

theorem roundHalfEven_bounds {a b : ℤ} {q : ℚ} (ha : (a : ℚ) ≤ q) (hb : q ≤ (b : ℚ)) :
    a ≤ roundHalfEven q ∧ roundHalfEven q ≤ b := by
  have hfa : a ≤ ⌊q⌋ := Int.le_floor.2 ha
  have hfb : ⌊q⌋ ≤ b := by
    have := Int.floor_le_floor hb
    simpa using this
  have hfloor : (⌊q⌋ : ℚ) ≤ q := Int.floor_le q
  unfold roundHalfEven
  simp only
  split_ifs with h1 h2 h3
  · exact ⟨hfa, hfb⟩
  · refine ⟨le_trans hfa (by omega), ?_⟩
    have hlt : (⌊q⌋ : ℚ) < q := by
      have : (0 : ℚ) < q - (⌊q⌋ : ℚ) := lt_trans (by norm_num) h2
      linarith
    have : (⌊q⌋ : ℚ) < (b : ℚ) := lt_of_lt_of_le hlt hb
    have hb2 : ⌊q⌋ < b := by exact_mod_cast this
    omega
  · exact ⟨hfa, hfb⟩
  · refine ⟨le_trans hfa (by omega), ?_⟩
    have hfrac : q - (⌊q⌋ : ℚ) = 1/2 := le_antisymm (not_lt.1 h2) (not_lt.1 h1)
    have hlt : (⌊q⌋ : ℚ) < q := by linarith
    have : (⌊q⌋ : ℚ) < (b : ℚ) := lt_of_lt_of_le hlt hb
    have hb2 : ⌊q⌋ < b := by exact_mod_cast this
    omega

/-- `roundHalfEven` rounds to a nearest integer: the distance to the result
is at most one half. -/
theorem roundHalfEven_dist (q : ℚ) : |q - (roundHalfEven q : ℚ)| ≤ 1/2 := by
  have hfloor : (⌊q⌋ : ℚ) ≤ q := Int.floor_le q
  have hceil : q < (⌊q⌋ : ℚ) + 1 := Int.lt_floor_add_one q
  unfold roundHalfEven
  simp only
  split_ifs with h1 h2 h3 <;> rw [abs_le] <;> push_cast <;> constructor <;> linarith

/-- Python's `round(x, 1)`: round to one decimal place, half to even. -/
def pyRound1 (q : ℚ) : ℚ :=
  (roundHalfEven (q * 10) : ℚ) / 10

-- -------------------------------------------------------------------
-- logic.py
-- -------------------------------------------------------------------

/-- `READY_PHASES` from logic.py: readiness bands (low, high, emoji, name). -/
def READY_PHASES : List (ℤ × ℤ × String × String) :=
  [(0, 39, "🌱", "準備"), (40, 69, "🔧", "試行"), (70, 100, "🚀", "拡張")]

/-- `ADOPTION_PHASES` from logic.py: adoption bands (low, high, label). -/
def ADOPTION_PHASES : List (ℤ × ℤ × String) :=
  [(0, 39, "未導入"), (40, 69, "一部導入"), (70, 100, "定着")]

/-- `MATRIX_HINTS` from logic.py: the fixed 3×3 recommendation table. -/
def MATRIX_HINTS : List ((String × String) × String) :=
  [(("準備", "未導入"), "基盤整備を進めつつ、小規模な試行から取り組みましょう。"),
   (("準備", "一部導入"), "成功事例を共有し、本格導入へ向けた体制を整えましょう。"),
   (("準備", "定着"), "ガバナンス（セキュリティやルール）整備で安心して活用できる環境を整えましょう。"),
   (("試行", "未導入"), "日報・報告など取り組みやすい業務からAI導入を始めましょう。"),
   (("試行", "一部導入"), "テンプレート整備と効果測定で導入範囲を広げましょう。"),
   (("試行", "定着"), "運用の標準化と定期研修で活用レベルを底上げしましょう。"),
   (("拡張", "未導入"), "高効果が期待できる部門に一気に導入を進めましょう。"),
   (("拡張", "一部導入"), "全社最適化とROI管理で成果の最大化を図りましょう。"),
   (("拡張", "定着"), "自動化や高度応用に踏み出し、新たな価値創出につなげましょう。")]

/-- Fallback string of `matrix_hint` (`MATRIX_HINTS.get(..., default)`). -/
def MATRIX_HINT_FALLBACK : String := "現在の状況に合わせた取り組みを検討しましょう。"

/-- An answer set: a Python dict from question id to an int or `None`,
modelled as an association list in insertion order. -/
abbrev AnswerSet := List (String × Option ℤ)

/-- Python dict access `answers[key]` (the key is always taken from the
dict itself in the source, so the `none` branch for a missing key is
unreachable there). -/
def dictGet (answers : AnswerSet) (k : String) : Option ℤ :=
  match List.find? (fun p => p.1 == k) answers with
  | some p => p.2
  | none => none

/-- `_ensure_ten_answers` from logic.py: demand exactly 10 values, none
of them `None`; return the (necessarily integer) values. -/
def ensure_ten_answers (vals : List (Option ℤ)) : Except String (List ℤ) :=
  if vals.length ≠ 10 then Except.error "10 件の回答が必要です。"
  else if vals.any (fun v => v == none) then Except.error "すべての設問に回答してください。"
  else Except.ok (vals.filterMap id)

/-- The sort key used by `calc_ready`: `int("".join(ch for ch in name if
ch.isdigit()) or 0)`. -/
def digitKey (name : String) : ℕ :=
  (name.toList.filter Char.isDigit).foldl (fun acc c => 10 * acc + (c.toNat - 48)) 0

/-- `calc_ready` from logic.py: sort the keys numerically, demand ten
non-`None` answers, and return the mean rounded to the nearest integer
(Python `round`, i.e. half to even). -/
def calc_ready (answers : AnswerSet) : Except String ℤ := do
  let ordered_keys :=
    (answers.map Prod.fst).mergeSort (fun a b => digitKey a ≤ digitKey b)
  let values ← ensure_ten_answers (ordered_keys.map (dictGet answers))
  pure (roundHalfEven ((values.sum : ℚ) / (values.length : ℚ)))

/-- `calc_reduction` from logic.py (no rounding in the source). -/
def calc_reduction (ready : ℤ) (adoption : ℤ) : ℚ :=
  let readiness : ℚ := (ready : ℚ) / 100
  let adoption_ratio : ℚ := (adoption : ℚ) / 100
  ((1 - adoption_ratio) * readiness * (9/10) + adoption_ratio * readiness * (3/10)) * 100

/-- `phase_label` from logic.py: 🌱 / 🔧 / 🚀, with sentinel ❓ out of range. -/
def phase_label (ready : ℤ) : String :=
  match READY_PHASES.find? (fun p => decide (p.1 ≤ ready ∧ ready ≤ p.2.1)) with
  | some p => p.2.2.1
  | none => "❓"

/-- `phase_name` from logic.py: 準備 / 試行 / 拡張, sentinel 未分類 out of range. -/
def phase_name (ready : ℤ) : String :=
  match READY_PHASES.find? (fun p => decide (p.1 ≤ ready ∧ ready ≤ p.2.1)) with
  | some p => p.2.2.2
  | none => "未分類"

/-- `adoption_stage` from logic.py: 未導入 / 一部導入 / 定着, sentinel 未分類. -/
def adoption_stage (adoption : ℤ) : String :=
  match ADOPTION_PHASES.find? (fun p => decide (p.1 ≤ adoption ∧ adoption ≤ p.2.1)) with
  | some p => p.2.2
  | none => "未分類"

/-- `matrix_hint` from logic.py: look the two band names up in
`MATRIX_HINTS`, falling back to a generic default. -/
def matrix_hint (ready : ℤ) (adoption : ℤ) : String :=
  let phase := phase_name ready
  let stage := adoption_stage adoption
  match MATRIX_HINTS.find? (fun p => p.1 == (phase, stage)) with
  | some p => p.2
  | none => MATRIX_HINT_FALLBACK

-- -------------------------------------------------------------------
-- Association-list dictionary lemmas
-- -------------------------------------------------------------------

theorem dictGet_cons_self {k : String} {v : Option ℤ} {rest : AnswerSet} :
    dictGet ((k, v) :: rest) k = v := by
  simp [dictGet, List.find?_cons_of_pos]

theorem dictGet_cons_ne {k k' : String} {v : Option ℤ} {rest : AnswerSet} (h : k' ≠ k) :
    dictGet ((k, v) :: rest) k' = dictGet rest k' := by
  unfold dictGet
  rw [List.find?_cons_of_neg _ (by simpa using Ne.symm h)]

/-- Looking every key of a dict up in that dict recovers its values. -/
theorem map_dictGet_keys :
    ∀ (answers : AnswerSet), (answers.map Prod.fst).Nodup →
      (answers.map Prod.fst).map (dictGet answers) = answers.map Prod.snd
  | [], _ => rfl
  | (k, v) :: rest, h => by
    have h' : (k :: rest.map Prod.fst).Nodup := by rw [List.map_cons] at h; exact h
    have hk : k ∉ rest.map Prod.fst := (List.nodup_cons.1 h').1
    have hrest : (rest.map Prod.fst).Nodup := (List.nodup_cons.1 h').2
    simp only [List.map_cons, dictGet_cons_self]
    congr 1
    rw [List.map_congr_left
      (fun k' hk' => dictGet_cons_ne (fun he => hk (by rw [← he]; exact hk')))]
    exact map_dictGet_keys rest hrest

/-- In a dict with distinct keys, `find?` on a present key returns that entry. -/
theorem find?_eq_of_nodup_mem :
    ∀ {answers : AnswerSet} {k : String} {v : Option ℤ},
      (answers.map Prod.fst).Nodup → (k, v) ∈ answers →
      List.find? (fun p => p.1 == k) answers = some (k, v)
  | [], _, _, _, hmem => by cases hmem
  | (k', v') :: rest, k, v, hnd, hmem => by
    have h' : (k' :: rest.map Prod.fst).Nodup := by rw [List.map_cons] at hnd; exact hnd
    have hk' : k' ∉ rest.map Prod.fst := (List.nodup_cons.1 h').1
    have hrest : (rest.map Prod.fst).Nodup := (List.nodup_cons.1 h').2
    rcases List.mem_cons.1 hmem with heq | hmem'
    · cases heq
      exact List.find?_cons_of_pos _ (by simp)
    · have hne : k' ≠ k := fun he =>
        hk' (by rw [he]; exact List.mem_map.2 ⟨(k, v), hmem', rfl⟩)
      rw [List.find?_cons_of_neg _ (by simpa using hne)]
      exact find?_eq_of_nodup_mem hrest hmem'

theorem length_filterMap_id {l : List (Option ℤ)} (h : ∀ x ∈ l, x ≠ none) :
    (l.filterMap id).length = l.length := by
  induction l with
  | nil => rfl
  | cons x xs ih =>
    cases x with
    | none => exact absurd rfl (h none (List.mem_cons_self _ _))
    | some v =>
      simp only [List.filterMap_cons, id, List.length_cons]
      rw [ih (fun y hy => h y (List.mem_cons_of_mem _ hy))]

theorem mem_none_of_filterMap_length_ne {l : List (Option ℤ)}
    (h : (l.filterMap id).length ≠ l.length) : none ∈ l := by
  by_contra hn
  exact h (length_filterMap_id (fun x hx he => hn (he ▸ hx)))

theorem sum_le_of_forall_bounds {l : List ℤ} (h : ∀ x ∈ l, 0 ≤ x ∧ x ≤ 100) :
    0 ≤ l.sum ∧ l.sum ≤ 100 * (l.length : ℤ) := by
  induction l with
  | nil => simp
  | cons x xs ih =>
    have hx := h x (List.mem_cons_self _ _)
    have hxs := ih (fun y hy => h y (List.mem_cons_of_mem _ hy))
    simp only [List.sum_cons, List.length_cons]
    push_cast
    omega

-- -------------------------------------------------------------------
-- app.py : compute_results
-- -------------------------------------------------------------------

/-- The dictionary returned by `compute_results` in app.py. -/
structure Results where
  ai_ready : ℤ
  ai_adoption : ℤ
  reduction_pct : ℚ
  category_label : String
deriving DecidableEq

/-- `compute_results` from app.py.  `statistics.mean` on an empty list and
`int(None)` both raise in Python; those raises are modelled as errors
(both are unreachable once the completeness check has passed on a
non-empty answer dict). -/
def compute_results (answers : AnswerSet) : Except String Results :=
  let numeric_answers := (answers.map Prod.snd).filterMap id
  if numeric_answers.length ≠ answers.length then
    Except.error "Missing answers; cannot compute final results."
  else if numeric_answers.length = 0 then
    Except.error "StatisticsError: mean requires at least one data point"
  else
    let ai_ready : ℤ := roundHalfEven ((numeric_answers.sum : ℚ) / (numeric_answers.length : ℚ))
    let raw_q4 : Option ℤ :=
      match List.find? (fun p => p.1 == "q4") answers with
      | some p => p.2
      | none => some 0
    match raw_q4 with
    | none => Except.error "TypeError: int() argument must not be None"
    | some ai_adoption =>
      let ready_ratio : ℚ := (ai_ready : ℚ) / 100
      let adoption_ratio : ℚ := (ai_adoption : ℚ) / 100
      let reduction_pct : ℚ :=
        ((1 - adoption_ratio) * ready_ratio * (9/10) + adoption_ratio * ready_ratio * (3/10)) * 100
      let category : String :=
        if ai_ready ≥ 70 then "🚀 拡張期"
        else if ai_ready ≥ 40 then "🔧 試行期"
        else "🌱 スタート"
      Except.ok
        { ai_ready := ai_ready
          ai_adoption := ai_adoption
          reduction_pct := pyRound1 reduction_pct
          category_label := category }

-- -------------------------------------------------------------------
-- app.py : suggestion_from_matrix
-- -------------------------------------------------------------------

/-- The readiness-band selection inside `suggestion_from_matrix`:
starts at 準備 and is overwritten by the two threshold tests. -/
def app_ready_band (ai_ready : ℤ) : String :=
  if ai_ready ≥ 70 then "拡張"
  else if ai_ready ≥ 40 then "試行"
  else "準備"

/-- The adoption-band selection inside `suggestion_from_matrix`. -/
def app_adoption_band (ai_adoption : ℤ) : String :=
  if ai_adoption ≥ 70 then "定着"
  else if ai_adoption ≥ 40 then "一部"
  else "未導入"

/-- `consultation_note` from `suggestion_from_matrix`. -/
def consultation_note : String :=
  "\n\n---\n\n💡 **展示会限定特典**: 訪問してのプライベート相談を無料で実施させていただきます。"

/-- The 3×3 `matrix` literal inside `suggestion_from_matrix` (each value
has `consultation_note` appended, as in the source). -/
def SUGGESTION_MATRIX : List ((String × String) × String) :=
  [(("準備", "未導入"),
    "**まずは基盤整備から始めましょう**\n\n現在、AI活用の準備段階にあります。以下のステップをお勧めします：\n1. 社内のデータ整理とデジタル化を進める\n2. ChatGPTなどの無料ツールで小規模な試行を開始\n3. 日報作成や議事録作成など、効果が出やすい業務から試してみる" ++ consultation_note),
   (("準備", "一部"),
    "**成功事例を広げる時期です**\n\n一部でAIを活用できています。次のステップへ進みましょう：\n1. 現在の成功事例を社内で共有し、横展開を図る\n2. ChatGPT Teamなど法人プランの導入を検討\n3. 複数部署での活用を促進し、ノウハウを蓄積する" ++ consultation_note),
   (("準備", "定着"),
    "**ガバナンス体制の構築が必要です**\n\n広く活用されていますが、管理体制の強化が課題です：\n1. AI利用ガイドライン・セキュリティポリシーの策定\n2. 情報漏洩対策とコンプライアンス体制の整備\n3. 全社的なAI活用ルールの明文化と周知" ++ consultation_note),
   (("試行", "未導入"),
    "**すぐに導入を始めましょう**\n\n準備は整っています。具体的な導入をお勧めします：\n1. 日報・報告書作成からAI活用を開始\n2. 週1回のAI活用報告会を設定し、成果を共有\n3. 3ヶ月以内に全社員がAIツールに触れる機会を作る" ++ consultation_note),
   (("試行", "一部"),
    "**効果測定と横展開を進めましょう**\n\n試行段階で一部導入済みです。次のアクションを：\n1. 活用テンプレート（プロンプト集）を整備・共有\n2. 作業時間削減などの効果を定量的に測定\n3. 成功事例を他部署に展開し、全社活用を目指す" ++ consultation_note),
   (("試行", "定着"),
    "**標準化と教育体制の確立を**\n\n多くの社員が活用しています。次のステップへ：\n1. ベストプラクティスを標準業務フローに組み込む\n2. 新入社員向けAI研修プログラムを整備\n3. 定期的なスキルアップ研修を実施し、活用レベルを底上げ" ++ consultation_note),
   (("拡張", "未導入"),
    "**今すぐ本格導入を開始すべきです**\n\n環境は整っています。積極的な導入をお勧めします：\n1. 効果が見込める重点部門から一気に導入\n2. 経営層主導でAI活用推進プロジェクトを立ち上げ\n3. 3ヶ月で全社展開を目指し、スピード感を持って進める" ++ consultation_note),
   (("拡張", "一部"),
    "**全社最適化とROI管理の段階です**\n\n高い準備度で一部導入済み。全社展開を加速しましょう：\n1. AI活用による業務改善効果（ROI）を定量評価\n2. 部門間連携を強化し、全社最適化を図る\n3. AI専任担当者・推進チームを設置して組織的に推進" ++ consultation_note),
   (("拡張", "定着"),
    "**自動化と高度応用へステップアップ**\n\nAI活用が定着しています。さらなる進化を：\n1. API連携やワークフロー自動化で生産性をさらに向上\n2. 独自AIモデルの開発や高度なカスタマイズを検討\n3. AI活用の成功事例を外部発信し、ブランド価値を向上" ++ consultation_note)]

/-- Fallback string of `suggestion_from_matrix` (`matrix.get(..., default)`). -/
def SUGGESTION_FALLBACK : String := "AIの活用状況に応じた次のステップを検討しましょう。"

/-- `suggestion_from_matrix` from app.py. -/
def suggestion_from_matrix (ai_ready : ℤ) (ai_adoption : ℤ) : String :=
  let ready_band := app_ready_band ai_ready
  let adoption_band := app_adoption_band ai_adoption
  match SUGGESTION_MATRIX.find? (fun p => p.1 == (ready_band, adoption_band)) with
  | some p => p.2
  | none => SUGGESTION_FALLBACK

-- -------------------------------------------------------------------
-- app.py : build_category_scores
-- -------------------------------------------------------------------

/-- A question parsed from the quiz table (see `load_questions` in app.py). -/
structure Question where
  id : String
  order : ℤ
  prompt : String
  category : String
deriving DecidableEq

/-- `CATEGORY_ALIASES` from app.py. -/
def CATEGORY_ALIASES : List (String × String) :=
  [("データ活用志向", "データ活用"), ("データ応用意", "データ活用")]

/-- `CATEGORY_ALIASES.get(raw_category, raw_category)`. -/
def categoryAlias (raw : String) : String :=
  match CATEGORY_ALIASES.find? (fun p => p.1 == raw) with
  | some p => p.2
  | none => raw

/-- The canonical category of a question:
`question.get("category") or "その他"` run through the alias table. -/
def questionCategory (question : Question) : String :=
  categoryAlias (if question.category = "" then "その他" else question.category)

/-- `buckets[category].append(value)` on the association-list dict. -/
def bucketsAppend (buckets : List (String × List ℤ)) (category : String) (value : ℤ) :
    List (String × List ℤ) :=
  buckets.map (fun p => if p.1 = category then (p.1, p.2 ++ [value]) else p)

/-- One iteration of the grouping loop of `build_category_scores`: skip
unanswered questions, create the bucket (and record first-seen order) if
needed, then append the value to the category's bucket. -/
def categoryStep (answers : AnswerSet) (acc : List (String × List ℤ) × List String)
    (question : Question) : List (String × List ℤ) × List String :=
  let category := questionCategory question
  match dictGet answers question.id with
  | none => acc
  | some value =>
    if (acc.1.find? (fun p => p.1 == category)).isSome then
      (bucketsAppend acc.1 category value, acc.2)
    else
      (bucketsAppend (acc.1 ++ [(category, [])]) category value, acc.2 ++ [category])

/-- `build_category_scores` from app.py: group answered questions by
canonical category in first-seen order and round each group's mean. -/
def build_category_scores (questions : List Question) (answers : AnswerSet) :
    List (String × ℤ) :=
  let st := questions.foldl (categoryStep answers) ([], [])
  st.2.filterMap (fun category =>
    match st.1.find? (fun p => p.1 == category) with
    | some p =>
      if p.2 = [] then none
      else some (category, roundHalfEven ((p.2.sum : ℚ) / (p.2.length : ℚ)))
    | none => none)

-- -------------------------------------------------------------------
-- app.py : append_response_to_sheet (submission with retry)
-- -------------------------------------------------------------------

/-- Result of one whole submission: success, or the final RuntimeError
wrapping the last attempt's underlying cause (`raise ... from exc`). -/
inductive SubmitOutcome where
  | success : SubmitOutcome
  | persistenceFailed (message : String) (cause : String) : SubmitOutcome
deriving DecidableEq

/-- Observable trace of the retry loop: how many `append_row` calls were
made, which sleeps were performed between attempts, and the outcome. -/
structure SubmitTrace where
  attempts : ℕ
  sleeps : List ℕ
  outcome : SubmitOutcome
deriving DecidableEq

/-- The body of the retry loop of `append_response_to_sheet`, iterating
over the attempt indices of `range(1, max_attempts + 1)`.  The
destination is modelled as a function from attempt index to the result
of `worksheet.append_row` (an error carries the exception message). -/
def sheetRetryLoop (dest : ℕ → Except String Unit) (max_attempts : ℕ) :
    List ℕ → ℕ → List ℕ → SubmitTrace
  | [], attempts, sleeps =>
    -- loop exhausted without a final raise: the Python function falls
    -- through and returns None (only reachable when the range is empty)
    { attempts := attempts, sleeps := sleeps, outcome := SubmitOutcome.success }
  | attempt :: rest, attempts, sleeps =>
    match dest attempt with
    | Except.ok _ =>
      { attempts := attempts + 1, sleeps := sleeps, outcome := SubmitOutcome.success }
    | Except.error exc =>
      let wait_sec := 2 ^ (attempt - 1)
      if attempt = max_attempts then
        { attempts := attempts + 1, sleeps := sleeps
          outcome := SubmitOutcome.persistenceFailed "Google Sheets への書き込みに失敗しました。" exc }
      else
        sheetRetryLoop dest max_attempts rest (attempts + 1) (sleeps ++ [wait_sec])

/-- `append_response_to_sheet` from app.py.  `configured` states whether
`GOOGLE_SHEETS_CREDS` is present in the secrets; when it is not, the
function raises immediately (`NotConfigured`, the outer `Except.error`)
without any attempt. -/
def append_response_to_sheet (configured : Bool) (dest : ℕ → Except String Unit) :
    Except String SubmitTrace :=
  if ¬ configured then
    Except.error "Streamlit Secrets に GOOGLE_SHEETS_CREDS が設定されていません。"
  else
    let max_attempts := 3
    Except.ok (sheetRetryLoop dest max_attempts (List.range' 1 max_attempts) 0 [])

-- -------------------------------------------------------------------
-- calc_ready on complete answer sets
-- -------------------------------------------------------------------

/-- The arithmetic mean of the answers of a complete 10-answer set. -/
def answersMean (answers : AnswerSet) : ℚ :=
  (((answers.map Prod.snd).filterMap id).sum : ℚ) / 10

/-- On a complete answer dict (10 entries, distinct keys, no `None`),
`calc_ready` returns the mean of the values rounded half-to-even. -/
theorem calc_ready_complete (answers : AnswerSet)
    (hnd : (answers.map Prod.fst).Nodup)
    (hlen : answers.length = 10)
    (hsome : ∀ p ∈ answers, p.2 ≠ none) :
    calc_ready answers = Except.ok (roundHalfEven (answersMean answers)) := by
  simp only [calc_ready]
  set sortedKeys :=
    (answers.map Prod.fst).mergeSort (fun a b => decide (digitKey a ≤ digitKey b))
    with hsk
  set vopt := sortedKeys.map (dictGet answers) with hv
  have hperm : sortedKeys.Perm (answers.map Prod.fst) := by
    rw [hsk]; exact List.mergeSort_perm _ _
  have hperm2 : vopt.Perm (answers.map Prod.snd) := by
    rw [hv, ← map_dictGet_keys answers hnd]
    exact hperm.map _
  have hvlen : vopt.length = 10 := by
    rw [hperm2.length_eq, List.length_map, hlen]
  have hvnone : ∀ x ∈ vopt, x ≠ none := by
    intro x hx
    rcases List.mem_map.1 (hperm2.mem_iff.1 hx) with ⟨p, hp, he⟩
    rw [← he]; exact hsome p hp
  have hens : ensure_ten_answers vopt = Except.ok (vopt.filterMap id) := by
    unfold ensure_ten_answers
    rw [if_neg (by rw [hvlen]; exact fun h => h rfl), if_neg]
    rw [Bool.not_eq_true, List.any_eq_false]
    intro x hx
    simpa using hvnone x hx
  have hflen : (vopt.filterMap id).length = 10 := by
    rw [length_filterMap_id hvnone, hvlen]
  have hfsum : (vopt.filterMap id).sum = ((answers.map Prod.snd).filterMap id).sum :=
    (hperm2.filterMap id).sum_eq
  rw [hens]
  show Except.ok (roundHalfEven (((vopt.filterMap id).sum : ℚ) /
      ((vopt.filterMap id).length : ℚ))) =
    Except.ok (roundHalfEven (answersMean answers))
  rw [hfsum, hflen]
  unfold answersMean
  norm_num

/-- C1: for every complete AnswerSet of exactly 10 integer values each in
[0,100] (a Python dict, hence distinct keys), `calc_ready` returns the
arithmetic mean of the 10 values rounded to the nearest integer under the
single consistent rule round-half-to-even, and the result lies in [0,100]. -/
theorem C1_readiness_is_rounded_mean (answers : AnswerSet)
    (hnd : (answers.map Prod.fst).Nodup)
    (hlen : answers.length = 10)
    (hvals : ∀ p ∈ answers, ∃ n : ℤ, p.2 = some n ∧ 0 ≤ n ∧ n ≤ 100) :
    calc_ready answers = Except.ok (roundHalfEven (answersMean answers)) ∧
    |answersMean answers - (roundHalfEven (answersMean answers) : ℚ)| ≤ 1/2 ∧
    0 ≤ roundHalfEven (answersMean answers) ∧
    roundHalfEven (answersMean answers) ≤ 100 := by
  have hsome : ∀ p ∈ answers, p.2 ≠ none := by
    intro p hp
    rcases hvals p hp with ⟨n, hn, _⟩
    rw [hn]
    exact fun h => Option.noConfusion h
  have hvbounds : ∀ x ∈ (answers.map Prod.snd).filterMap id, 0 ≤ x ∧ x ≤ 100 := by
    intro x hx
    rcases List.mem_filterMap.1 hx with ⟨o, ho, hox⟩
    rcases List.mem_map.1 ho with ⟨p, hp, hpo⟩
    rcases hvals p hp with ⟨n, hn, h0, h100⟩
    have : x = n := by
      rw [← hpo, hn] at hox
      exact (Option.some.inj (by simpa using hox)).symm
    rw [this]; exact ⟨h0, h100⟩
  have hslen : ((answers.map Prod.snd).filterMap id).length = 10 := by
    rw [length_filterMap_id, List.length_map, hlen]
    intro x hx
    rcases List.mem_map.1 hx with ⟨p, hp, he⟩
    rw [← he]; exact hsome p hp
  have hsum := sum_le_of_forall_bounds hvbounds
  have hmean0 : (0 : ℚ) ≤ answersMean answers := by
    unfold answersMean
    apply div_nonneg _ (by norm_num)
    exact_mod_cast hsum.1
  have hmean100 : answersMean answers ≤ (100 : ℚ) := by
    unfold answersMean
    rw [div_le_iff₀ (by norm_num)]
    have h1000 : ((answers.map Prod.snd).filterMap id).sum ≤ 1000 := by
      have := hsum.2
      rw [hslen] at this
      omega
    have : (((answers.map Prod.snd).filterMap id).sum : ℚ) ≤ 1000 := by exact_mod_cast h1000
    linarith
  have hbounds := roundHalfEven_bounds (a := 0) (b := 100)
    (by exact_mod_cast hmean0) (by exact_mod_cast hmean100)
  exact ⟨calc_ready_complete answers hnd hlen hsome, roundHalfEven_dist _,
    hbounds.1, hbounds.2⟩

/-- The answer set used in tests/test_logic.py: q1..q10 ↦ 10,…,100. -/
def TEST_ANSWERS : AnswerSet :=
  [("q1", some 10), ("q2", some 20), ("q3", some 30), ("q4", some 40), ("q5", some 50),
   ("q6", some 60), ("q7", some 70), ("q8", some 80), ("q9", some 90), ("q10", some 100)]

/-- Witness for C1 at the concrete test answer set. -/
theorem C1_readiness_is_rounded_mean_witness :
    calc_ready TEST_ANSWERS = Except.ok (roundHalfEven (answersMean TEST_ANSWERS)) ∧
    |answersMean TEST_ANSWERS - (roundHalfEven (answersMean TEST_ANSWERS) : ℚ)| ≤ 1/2 ∧
    0 ≤ roundHalfEven (answersMean TEST_ANSWERS) ∧
    roundHalfEven (answersMean TEST_ANSWERS) ≤ 100 :=
  C1_readiness_is_rounded_mean TEST_ANSWERS (by decide) (by decide) (by simp [TEST_ANSWERS])

-- -------------------------------------------------------------------
-- compute_results on complete answer sets
-- -------------------------------------------------------------------

/-- Shape of `compute_results` on a non-empty answer dict without `None`
values: it succeeds, with the readiness mean, the raw q4 adoption value
(default 0), the rounded reduction, and the threshold label. -/
theorem compute_results_eq (answers : AnswerSet)
    (hne : answers ≠ []) (hsome : ∀ p ∈ answers, p.2 ≠ none) :
    compute_results answers =
      (let values := (answers.map Prod.snd).filterMap id
      let ai_ready := roundHalfEven ((values.sum : ℚ) / (values.length : ℚ))
      let ai_adoption : ℤ :=
        match List.find? (fun p => p.1 == "q4") answers with
        | some p => p.2.getD 0
        | none => 0
      Except.ok
        { ai_ready := ai_ready
          ai_adoption := ai_adoption
          reduction_pct := pyRound1 (calc_reduction ai_ready ai_adoption)
          category_label :=
            if ai_ready ≥ 70 then "🚀 拡張期"
            else if ai_ready ≥ 40 then "🔧 試行期"
            else "🌱 スタート" }) := by
  have hnone' : ∀ x ∈ answers.map Prod.snd, x ≠ none := by
    intro x hx
    rcases List.mem_map.1 hx with ⟨p, hp, he⟩
    rw [← he]; exact hsome p hp
  have hlen : ((answers.map Prod.snd).filterMap id).length = answers.length := by
    rw [length_filterMap_id hnone', List.length_map]
  have hlen0 : answers.length ≠ 0 := fun h => hne (List.length_eq_zero.1 h)
  simp only [compute_results]
  rw [if_neg (by rw [hlen]; exact fun h => h rfl)]
  rw [if_neg (by rw [hlen]; exact hlen0)]
  cases hfind : List.find? (fun p => p.1 == "q4") answers with
  | none =>
    simp only [calc_reduction]
  | some p =>
    have hp : p ∈ answers := List.mem_of_find?_eq_some hfind
    rcases Option.ne_none_iff_exists'.1 (hsome p hp) with ⟨v, hv⟩
    simp only [hv, calc_reduction, Option.getD_some]

-- -------------------------------------------------------------------
-- C2 : the reduction formula and its rounding
-- -------------------------------------------------------------------

/-- C2 counterexample: at (68,45) `calc_reduction` returns exactly 42.84,
which is not a value rounded to 1 decimal place, and the 1-decimal value
42.8 stored by `compute_results` is not within ±0.01 of 42.84 — so no
single function both "rounds to 1 decimal place" and "equals 42.84
within ±0.01" as the claim asserts. -/
theorem C2_counterexample :
    calc_reduction 68 45 = 4284/100 ∧
    pyRound1 (calc_reduction 68 45) = 428/10 ∧
    calc_reduction 68 45 ≠ pyRound1 (calc_reduction 68 45) ∧
    ¬ |pyRound1 (calc_reduction 68 45) - 4284/100| ≤ 1/100 := by
  norm_num [calc_reduction, pyRound1, roundHalfEven]
  rw [abs_of_pos (by norm_num)]
  norm_num

/-- C2 (amended): `calc_reduction` returns the blended formula value
unrounded — equal to 42.84 at (68,45), hence within the spec's ±0.01 —
and the `reduction_pct` field of `compute_results` is that value rounded
to 1 decimal place (42.8 there). -/
theorem C2_reduction_formula (ready adoption : ℤ) (answers : AnswerSet) (res : Results)
    (h : compute_results answers = Except.ok res) :
    calc_reduction ready adoption =
      ((1 - (adoption : ℚ)/100) * ((ready : ℚ)/100) * (9/10) +
        ((adoption : ℚ)/100) * ((ready : ℚ)/100) * (3/10)) * 100 ∧
    calc_reduction 68 45 = 4284/100 ∧
    |calc_reduction 68 45 - 4284/100| ≤ 1/100 ∧
    res.reduction_pct = pyRound1 (calc_reduction res.ai_ready res.ai_adoption) := by
  refine ⟨rfl, by norm_num [calc_reduction], by norm_num [calc_reduction], ?_⟩
  simp only [compute_results] at h
  split at h
  · exact absurd h (by simp)
  · split at h
    · exact absurd h (by simp)
    · split at h
      · exact absurd h (by simp)
      · rw [← Except.ok.inj h]
        simp [calc_reduction]

/-- Witness for C2 (amended) at `TEST_ANSWERS`, whose results record is
`⟨55, 40, 36.3, 🔧 試行期⟩`. -/
theorem C2_reduction_formula_witness :
    calc_reduction 68 45 =
      ((1 - (45 : ℚ)/100) * ((68 : ℚ)/100) * (9/10) +
        ((45 : ℚ)/100) * ((68 : ℚ)/100) * (3/10)) * 100 ∧
    calc_reduction 68 45 = 4284/100 ∧
    |calc_reduction 68 45 - 4284/100| ≤ 1/100 ∧
    (363/10 : ℚ) = pyRound1 (calc_reduction 55 40) := by
  have h : compute_results TEST_ANSWERS = Except.ok ⟨55, 40, 363/10, "🔧 試行期"⟩ := by
    rw [compute_results_eq TEST_ANSWERS (by decide) (by decide)]
    have hvals : (TEST_ANSWERS.map Prod.snd).filterMap id =
        [10, 20, 30, 40, 50, 60, 70, 80, 90, 100] := by decide
    have hfind : List.find? (fun p => p.1 == "q4") TEST_ANSWERS = some ("q4", some 40) := by
      decide
    simp only [hvals, hfind, List.sum_cons, List.sum_nil, List.length_cons,
      List.length_nil, Option.getD_some]
    norm_num [pyRound1, roundHalfEven, calc_reduction]
  exact C2_reduction_formula 68 45 TEST_ANSWERS ⟨55, 40, 363/10, "🔧 試行期"⟩ h

-- -------------------------------------------------------------------
-- C8 : monotonicity and range of calc_reduction
-- -------------------------------------------------------------------

/-- C8 counterexample: for the fixed adoption value 200 the function is
*decreasing* in readiness (readiness 0 ↦ 0 but readiness 100 ↦ −30), so
monotonicity fails for "every fixed adoption value". -/
theorem C8_counterexample :
    (0 : ℤ) ≤ 100 ∧ calc_reduction 100 200 < calc_reduction 0 200 ∧
    calc_reduction 100 200 = -30 := by
  norm_num [calc_reduction]

/-- C8 (amended): `calc_reduction` is monotonically non-decreasing in
readiness for every fixed adoption value *in [0,100]*, and its value lies
in [0,100] (indeed in [0,90]) for all input pairs in [0,100]×[0,100]. -/
theorem C8_reduction_monotone_bounded (r1 r2 a r : ℤ)
    (hmono : r1 ≤ r2) (ha0 : 0 ≤ a) (ha1 : a ≤ 100)
    (hr0 : 0 ≤ r) (hr1 : r ≤ 100) :
    calc_reduction r1 a ≤ calc_reduction r2 a ∧
    0 ≤ calc_reduction r a ∧ calc_reduction r a ≤ 100 := by
  have key : ∀ x : ℤ, calc_reduction x a = (x : ℚ) * ((450 - 3 * (a : ℚ)) / 500) := by
    intro x
    unfold calc_reduction
    ring
  have ha0' : (0 : ℚ) ≤ (a : ℚ) := by exact_mod_cast ha0
  have ha1' : (a : ℚ) ≤ 100 := by exact_mod_cast ha1
  have hr0' : (0 : ℚ) ≤ (r : ℚ) := by exact_mod_cast hr0
  have hr1' : (r : ℚ) ≤ 100 := by exact_mod_cast hr1
  have hc0 : (0 : ℚ) ≤ (450 - 3 * (a : ℚ)) / 500 := by
    apply div_nonneg _ (by norm_num)
    linarith
  have hc1 : (450 - 3 * (a : ℚ)) / 500 ≤ 9/10 := by
    rw [div_le_iff₀ (by norm_num)]
    linarith
  refine ⟨?_, ?_, ?_⟩
  · rw [key r1, key r2]
    exact mul_le_mul_of_nonneg_right (by exact_mod_cast hmono) hc0
  · rw [key r]
    exact mul_nonneg hr0' hc0
  · rw [key r]
    calc (r : ℚ) * ((450 - 3 * (a : ℚ)) / 500) ≤ 100 * (9/10) := by
          apply mul_le_mul hr1' hc1 hc0 (by norm_num)
      _ ≤ 100 := by norm_num

/-- Witness for C8 (amended) at readiness 0 ≤ 100, adoption 45, point 68. -/
theorem C8_reduction_monotone_bounded_witness :
    calc_reduction 0 45 ≤ calc_reduction 100 45 ∧
    0 ≤ calc_reduction 68 45 ∧ calc_reduction 68 45 ≤ 100 :=
  C8_reduction_monotone_bounded 0 100 45 68 (by decide) (by decide) (by decide)
    (by decide) (by decide)

-- -------------------------------------------------------------------
-- C3 : band boundaries and the out-of-range policy
-- -------------------------------------------------------------------

theorem phase_find_none {r : ℤ} (h : r < 0 ∨ 100 < r) :
    READY_PHASES.find? (fun p => decide (p.1 ≤ r ∧ r ≤ p.2.1)) = none := by
  have h1 : ¬((0 : ℤ) ≤ r ∧ r ≤ 39) := by omega
  have h2 : ¬((40 : ℤ) ≤ r ∧ r ≤ 69) := by omega
  have h3 : ¬((70 : ℤ) ≤ r ∧ r ≤ 100) := by omega
  show List.find? _ [((0:ℤ), (39:ℤ), "🌱", "準備"), (40, 69, "🔧", "試行"), (70, 100, "🚀", "拡張")] = none
  rw [List.find?_cons_of_neg _ (by simpa using h1),
    List.find?_cons_of_neg _ (by simpa using h2),
    List.find?_cons_of_neg _ (by simpa using h3), List.find?_nil]

theorem adoption_find_none {a : ℤ} (h : a < 0 ∨ 100 < a) :
    ADOPTION_PHASES.find? (fun p => decide (p.1 ≤ a ∧ a ≤ p.2.1)) = none := by
  have h1 : ¬((0 : ℤ) ≤ a ∧ a ≤ 39) := by omega
  have h2 : ¬((40 : ℤ) ≤ a ∧ a ≤ 69) := by omega
  have h3 : ¬((70 : ℤ) ≤ a ∧ a ≤ 100) := by omega
  show List.find? _ [((0:ℤ), (39:ℤ), "未導入"), (40, 69, "一部導入"), (70, 100, "定着")] = none
  rw [List.find?_cons_of_neg _ (by simpa using h1),
    List.find?_cons_of_neg _ (by simpa using h2),
    List.find?_cons_of_neg _ (by simpa using h3), List.find?_nil]

/-- C3 counterexample: at score 101 (and likewise at every out-of-range
score) the program does not apply one single out-of-range policy: the
logic.py classifiers return their sentinels while the band selection of
`suggestion_from_matrix` clamps to the top band. -/
theorem C3_counterexample :
    phase_name 101 = "未分類" ∧ phase_label 101 = "❓" ∧
    app_ready_band 101 = "拡張" ∧ app_ready_band 101 ≠ phase_name 101 ∧
    adoption_stage 101 = "未分類" ∧ app_adoption_band 101 = "定着" ∧
    app_adoption_band 101 ≠ adoption_stage 101 := by
  decide

/-- C3 (amended): readiness 39↦start/🌱, 40↦trial/🔧, 69↦trial/🔧,
70↦scale/🚀, and 0 and 100 classify without error; but out of [0,100]
there are two different policies: `phase_label` / `phase_name` /
`adoption_stage` all return a sentinel (❓ / 未分類), while the band
selection inside `suggestion_from_matrix` clamps to the nearest band and
therefore disagrees with the logic.py classifiers at every out-of-range
score. -/
theorem C3_band_boundaries_and_policy (r : ℤ) (h : r < 0 ∨ 100 < r) :
    (phase_name 39 = "準備" ∧ phase_label 39 = "🌱" ∧
     phase_name 40 = "試行" ∧ phase_label 40 = "🔧" ∧
     phase_name 69 = "試行" ∧ phase_label 69 = "🔧" ∧
     phase_name 70 = "拡張" ∧ phase_label 70 = "🚀" ∧
     phase_name 0 = "準備" ∧ phase_name 100 = "拡張" ∧
     adoption_stage 0 = "未導入" ∧ adoption_stage 39 = "未導入" ∧
     adoption_stage 40 = "一部導入" ∧ adoption_stage 69 = "一部導入" ∧
     adoption_stage 70 = "定着" ∧ adoption_stage 100 = "定着") ∧
    (phase_name r = "未分類" ∧ phase_label r = "❓" ∧ adoption_stage r = "未分類") ∧
    app_ready_band r ≠ phase_name r ∧
    app_adoption_band r ≠ adoption_stage r := by
  have hpn : phase_name r = "未分類" := by
    unfold phase_name; rw [phase_find_none h]
  have hpl : phase_label r = "❓" := by
    unfold phase_label; rw [phase_find_none h]
  have has : adoption_stage r = "未分類" := by
    unfold adoption_stage; rw [adoption_find_none h]
  refine ⟨by decide, ⟨hpn, hpl, has⟩, ?_, ?_⟩
  · rw [hpn]
    unfold app_ready_band
    rcases h with h | h
    · rw [if_neg (by omega), if_neg (by omega)]
      decide
    · rw [if_pos (by omega)]
      decide
  · rw [has]
    unfold app_adoption_band
    rcases h with h | h
    · rw [if_neg (by omega), if_neg (by omega)]
      decide
    · rw [if_pos (by omega)]
      decide

/-- Witness for C3 (amended) at the out-of-range score 101. -/
theorem C3_band_boundaries_and_policy_witness :
    (phase_name 39 = "準備" ∧ phase_label 39 = "🌱" ∧
     phase_name 40 = "試行" ∧ phase_label 40 = "🔧" ∧
     phase_name 69 = "試行" ∧ phase_label 69 = "🔧" ∧
     phase_name 70 = "拡張" ∧ phase_label 70 = "🚀" ∧
     phase_name 0 = "準備" ∧ phase_name 100 = "拡張" ∧
     adoption_stage 0 = "未導入" ∧ adoption_stage 39 = "未導入" ∧
     adoption_stage 40 = "一部導入" ∧ adoption_stage 69 = "一部導入" ∧
     adoption_stage 70 = "定着" ∧ adoption_stage 100 = "定着") ∧
    (phase_name 101 = "未分類" ∧ phase_label 101 = "❓" ∧ adoption_stage 101 = "未分類") ∧
    app_ready_band 101 ≠ phase_name 101 ∧
    app_adoption_band 101 ≠ adoption_stage 101 :=
  C3_band_boundaries_and_policy 101 (by decide)

-- -------------------------------------------------------------------
-- C6 : the 3×3 lookups are total on [0,100]²
-- -------------------------------------------------------------------

theorem phase_name_cases (r : ℤ) (h0 : 0 ≤ r) (h1 : r ≤ 100) :
    phase_name r = "準備" ∨ phase_name r = "試行" ∨ phase_name r = "拡張" := by
  unfold phase_name
  simp only [READY_PHASES]
  by_cases hA : r ≤ 39
  · rw [List.find?_cons_of_pos _ (by simpa using ⟨h0, hA⟩)]
    exact Or.inl rfl
  · by_cases hB : r ≤ 69
    · rw [List.find?_cons_of_neg _ (by simp; omega),
        List.find?_cons_of_pos _ (by simp; omega)]
      exact Or.inr (Or.inl rfl)
    · rw [List.find?_cons_of_neg _ (by simp; omega),
        List.find?_cons_of_neg _ (by simp; omega),
        List.find?_cons_of_pos _ (by simp; omega)]
      exact Or.inr (Or.inr rfl)

theorem adoption_stage_cases (a : ℤ) (h0 : 0 ≤ a) (h1 : a ≤ 100) :
    adoption_stage a = "未導入" ∨ adoption_stage a = "一部導入" ∨ adoption_stage a = "定着" := by
  unfold adoption_stage
  simp only [ADOPTION_PHASES]
  by_cases hA : a ≤ 39
  · rw [List.find?_cons_of_pos _ (by simpa using ⟨h0, hA⟩)]
    exact Or.inl rfl
  · by_cases hB : a ≤ 69
    · rw [List.find?_cons_of_neg _ (by simp; omega),
        List.find?_cons_of_pos _ (by simp; omega)]
      exact Or.inr (Or.inl rfl)
    · rw [List.find?_cons_of_neg _ (by simp; omega),
        List.find?_cons_of_neg _ (by simp; omega),
        List.find?_cons_of_pos _ (by simp; omega)]
      exact Or.inr (Or.inr rfl)

theorem app_ready_band_cases (r : ℤ) :
    app_ready_band r = "準備" ∨ app_ready_band r = "試行" ∨ app_ready_band r = "拡張" := by
  unfold app_ready_band
  split_ifs <;> simp

theorem app_adoption_band_cases (a : ℤ) :
    app_adoption_band a = "未導入" ∨ app_adoption_band a = "一部" ∨
    app_adoption_band a = "定着" := by
  unfold app_adoption_band
  split_ifs <;> simp

set_option maxRecDepth 8192 in
/-- C6: for every pair of scores in [0,100]×[0,100] both recommendation
lookups (`matrix_hint` in logic.py and `suggestion_from_matrix` in
app.py) return one of their 9 fixed table entries and never the generic
fallback string; the fallback can only ever arise for a band combination
that is absent from the table. -/
theorem C6_matrix_total (r a : ℤ) (h0r : 0 ≤ r) (h1r : r ≤ 100)
    (h0a : 0 ≤ a) (h1a : a ≤ 100) :
    (matrix_hint r a ∈ MATRIX_HINTS.map Prod.snd ∧
      matrix_hint r a ≠ MATRIX_HINT_FALLBACK) ∧
    (suggestion_from_matrix r a ∈ SUGGESTION_MATRIX.map Prod.snd ∧
      suggestion_from_matrix r a ≠ SUGGESTION_FALLBACK) ∧
    (∀ r' a' : ℤ, matrix_hint r' a' = MATRIX_HINT_FALLBACK →
      MATRIX_HINTS.find? (fun p => p.1 == (phase_name r', adoption_stage a')) = none) ∧
    (∀ r' a' : ℤ, suggestion_from_matrix r' a' = SUGGESTION_FALLBACK →
      SUGGESTION_MATRIX.find?
        (fun p => p.1 == (app_ready_band r', app_adoption_band a')) = none) := by
  refine ⟨?_, ?_, ?_, ?_⟩
  · simp only [matrix_hint]
    obtain hp | hp | hp := phase_name_cases r h0r h1r <;>
      obtain hs | hs | hs := adoption_stage_cases a h0a h1a <;>
        rw [hp, hs] <;> decide
  · simp only [suggestion_from_matrix]
    obtain hp | hp | hp := app_ready_band_cases r <;>
      obtain hs | hs | hs := app_adoption_band_cases a <;>
        rw [hp, hs] <;> decide
  · intro r' a' hfb
    simp only [matrix_hint] at hfb
    cases hfind : MATRIX_HINTS.find?
        (fun p => p.1 == (phase_name r', adoption_stage a')) with
    | none => rfl
    | some p =>
      rw [hfind] at hfb
      simp only [] at hfb
      have hall : ∀ q ∈ MATRIX_HINTS, q.2 ≠ MATRIX_HINT_FALLBACK := by decide
      exact absurd hfb (hall p (List.mem_of_find?_eq_some hfind))
  · intro r' a' hfb
    simp only [suggestion_from_matrix] at hfb
    cases hfind : SUGGESTION_MATRIX.find?
        (fun p => p.1 == (app_ready_band r', app_adoption_band a')) with
    | none => rfl
    | some p =>
      rw [hfind] at hfb
      simp only [] at hfb
      have hall : ∀ q ∈ SUGGESTION_MATRIX, q.2 ≠ SUGGESTION_FALLBACK := by decide
      exact absurd hfb (hall p (List.mem_of_find?_eq_some hfind))

/-- Witness for C6 at scores (50, 50). -/
theorem C6_matrix_total_witness :
    (matrix_hint 50 50 ∈ MATRIX_HINTS.map Prod.snd ∧
      matrix_hint 50 50 ≠ MATRIX_HINT_FALLBACK) ∧
    (suggestion_from_matrix 50 50 ∈ SUGGESTION_MATRIX.map Prod.snd ∧
      suggestion_from_matrix 50 50 ≠ SUGGESTION_FALLBACK) ∧
    (∀ r' a' : ℤ, matrix_hint r' a' = MATRIX_HINT_FALLBACK →
      MATRIX_HINTS.find? (fun p => p.1 == (phase_name r', adoption_stage a')) = none) ∧
    (∀ r' a' : ℤ, suggestion_from_matrix r' a' = SUGGESTION_FALLBACK →
      SUGGESTION_MATRIX.find?
        (fun p => p.1 == (app_ready_band r', app_adoption_band a')) = none) :=
  C6_matrix_total 50 50 (by decide) (by decide) (by decide) (by decide)

-- -------------------------------------------------------------------
-- C4 / C5 / C10 : completeness errors, adoption field, agreement
-- -------------------------------------------------------------------

theorem filterMap_length_lt_of_mem_none {l : List (Option ℤ)} (h : none ∈ l) :
    (l.filterMap id).length < l.length := by
  induction l with
  | nil => cases h
  | cons x xs ih =>
    cases x with
    | none =>
      have hle := List.length_filterMap_le id xs
      simp only [List.filterMap_cons, id_eq, List.length_cons]
      omega
    | some v =>
      rcases List.mem_cons.1 h with h' | h'
      · exact absurd h' (by simp)
      · have := ih h'
        simp only [List.filterMap_cons, id_eq, List.length_cons]
        omega

/-- `calc_ready` rejects any dict that does not have exactly ten entries. -/
theorem calc_ready_error_of_length (answers : AnswerSet) (hlen : answers.length ≠ 10) :
    calc_ready answers = Except.error "10 件の回答が必要です。" := by
  simp only [calc_ready]
  set sortedKeys :=
    (answers.map Prod.fst).mergeSort (fun a b => decide (digitKey a ≤ digitKey b))
    with hsk
  set vopt := sortedKeys.map (dictGet answers) with hv
  have hperm : sortedKeys.Perm (answers.map Prod.fst) := by
    rw [hsk]; exact List.mergeSort_perm _ _
  have hvlen : vopt.length = answers.length := by
    rw [hv, List.length_map, hperm.length_eq, List.length_map]
  have hens : ensure_ten_answers vopt = Except.error "10 件の回答が必要です。" := by
    unfold ensure_ten_answers
    rw [if_pos (by rw [hvlen]; exact hlen)]
  rw [hens]
  rfl

/-- C4 (amended): `calc_ready` raises ValueError whenever fewer than 10
of the answers are present and succeeds on every complete 10-answer
dict; `compute_results` raises ValueError whenever an unanswered
question is recorded as an explicit null value, but on a dict that
simply omits keys (fewer than 10 entries, all of them answered) it
returns a score instead of failing. -/
theorem C4_incomplete_raises (answers : AnswerSet)
    (hnd : (answers.map Prod.fst).Nodup) :
    (((answers.map Prod.snd).filterMap id).length < 10 →
      ∃ e, calc_ready answers = Except.error e) ∧
    (answers.length = 10 → (∀ p ∈ answers, p.2 ≠ none) →
      ∃ r, calc_ready answers = Except.ok r) ∧
    ((∃ p ∈ answers, p.2 = none) → ∃ e, compute_results answers = Except.error e) := by
  refine ⟨?_, ?_, ?_⟩
  · intro hlt
    by_cases hlen : answers.length = 10
    · simp only [calc_ready]
      set sortedKeys :=
        (answers.map Prod.fst).mergeSort (fun a b => decide (digitKey a ≤ digitKey b))
        with hsk
      set vopt := sortedKeys.map (dictGet answers) with hv
      have hperm : sortedKeys.Perm (answers.map Prod.fst) := by
        rw [hsk]; exact List.mergeSort_perm _ _
      have hvlen : vopt.length = answers.length := by
        rw [hv, List.length_map, hperm.length_eq, List.length_map]
      have hne : ((answers.map Prod.snd).filterMap id).length ≠
          (answers.map Prod.snd).length := by
        rw [List.length_map, hlen]; omega
      have hnone : none ∈ answers.map Prod.snd := mem_none_of_filterMap_length_ne hne
      rcases List.mem_map.1 hnone with ⟨p, hp, hpe⟩
      have hpmem : (p.1, (none : Option ℤ)) ∈ answers := by
        rw [← hpe]; simpa using hp
      have hd : dictGet answers p.1 = none := by
        unfold dictGet
        rw [find?_eq_of_nodup_mem hnd hpmem]
      have hkmem : p.1 ∈ sortedKeys :=
        hperm.mem_iff.2 (List.mem_map.2 ⟨p, hp, rfl⟩)
      have hvnone : (none : Option ℤ) ∈ vopt := by
        rw [hv]
        exact List.mem_map.2 ⟨p.1, hkmem, hd⟩
      have hens : ensure_ten_answers vopt = Except.error "すべての設問に回答してください。" := by
        unfold ensure_ten_answers
        rw [if_neg (by rw [hvlen, hlen]; exact fun h => h rfl), if_pos]
        exact List.any_eq_true.2 ⟨none, hvnone, by simp⟩
      rw [hens]
      exact ⟨"すべての設問に回答してください。", rfl⟩
    · exact ⟨"10 件の回答が必要です。", calc_ready_error_of_length answers hlen⟩
  · intro hlen hsome
    exact ⟨roundHalfEven (answersMean answers), calc_ready_complete answers hnd hlen hsome⟩
  · rintro ⟨p, hp, hpe⟩
    have hnone : none ∈ answers.map Prod.snd := by
      rw [← hpe]; exact List.mem_map.2 ⟨p, hp, rfl⟩
    have hlt := filterMap_length_lt_of_mem_none hnone
    rw [List.length_map] at hlt
    refine ⟨"Missing answers; cannot compute final results.", ?_⟩
    simp only [compute_results]
    rw [if_pos (by omega)]

/-- An answer dict with only nine (all answered) entries — the q10 key
is simply absent, which the spec's AnswerSet data model allows. -/
def NINE_ANSWERS : AnswerSet :=
  [("q1", some 50), ("q2", some 50), ("q3", some 50), ("q4", some 50), ("q5", some 50),
   ("q6", some 50), ("q7", some 50), ("q8", some 50), ("q9", some 50)]

/-- C4 counterexample: on an AnswerSet with only 9 present answers,
`compute_results` returns a score (the mean of the nine) instead of
failing with IncompleteAnswers; only `calc_ready` rejects it. -/
theorem C4_counterexample :
    compute_results NINE_ANSWERS =
      Except.ok ⟨50, 50, pyRound1 (calc_reduction 50 50), "🔧 試行期"⟩ ∧
    calc_ready NINE_ANSWERS = Except.error "10 件の回答が必要です。" := by
  constructor
  · rw [compute_results_eq NINE_ANSWERS (by decide) (by decide)]
    have hvals : (NINE_ANSWERS.map Prod.snd).filterMap id =
        [50, 50, 50, 50, 50, 50, 50, 50, 50] := by decide
    have hfind : List.find? (fun p => p.1 == "q4") NINE_ANSWERS = some ("q4", some 50) := by
      decide
    simp only [hvals, hfind, List.sum_cons, List.sum_nil, List.length_cons,
      List.length_nil, Option.getD_some]
    norm_num [roundHalfEven]
  · exact calc_ready_error_of_length NINE_ANSWERS (by decide)

/-- An answer dict whose tenth question is recorded as an explicit null. -/
def PARTIAL_ANSWERS : AnswerSet :=
  [("q1", some 50), ("q2", some 50), ("q3", some 50), ("q4", some 50), ("q5", some 50),
   ("q6", some 50), ("q7", some 50), ("q8", some 50), ("q9", some 50), ("q10", none)]

/-- Witness for C4 (amended) at an answer dict with an explicit null. -/
theorem C4_incomplete_raises_witness :
    (((PARTIAL_ANSWERS.map Prod.snd).filterMap id).length < 10 →
      ∃ e, calc_ready PARTIAL_ANSWERS = Except.error e) ∧
    (PARTIAL_ANSWERS.length = 10 → (∀ p ∈ PARTIAL_ANSWERS, p.2 ≠ none) →
      ∃ r, calc_ready PARTIAL_ANSWERS = Except.ok r) ∧
    ((∃ p ∈ PARTIAL_ANSWERS, p.2 = none) →
      ∃ e, compute_results PARTIAL_ANSWERS = Except.error e) :=
  C4_incomplete_raises PARTIAL_ANSWERS (by decide)

/-- C5: on every complete answer dict (all values present)
`compute_results` succeeds, and its `ai_adoption` field is the raw value
of the designated adoption question q4 — not an average of anything —
and equals 0 when the q4 key is absent from the mapping, rather than
failing. -/
theorem C5_adoption_is_raw_q4 (answers : AnswerSet)
    (hnd : (answers.map Prod.fst).Nodup)
    (hne : answers ≠ [])
    (hsome : ∀ p ∈ answers, p.2 ≠ none) :
    ∃ res : Results, compute_results answers = Except.ok res ∧
      (∀ v : ℤ, ("q4", some v) ∈ answers → res.ai_adoption = v) ∧
      ((∀ p ∈ answers, p.1 ≠ "q4") → res.ai_adoption = 0) := by
  rw [compute_results_eq answers hne hsome]
  refine ⟨_, rfl, ?_, ?_⟩
  · intro v hmem
    show (match List.find? (fun p => p.1 == "q4") answers with
      | some p => p.2.getD 0
      | none => (0 : ℤ)) = v
    rw [find?_eq_of_nodup_mem hnd hmem]
    simp
  · intro habsent
    show (match List.find? (fun p => p.1 == "q4") answers with
      | some p => p.2.getD 0
      | none => (0 : ℤ)) = (0 : ℤ)
    rw [List.find?_eq_none.2 (fun p hp => by simpa using habsent p hp)]

/-- Witness for C5 at the concrete test answer set (q4 ↦ 40). -/
theorem C5_adoption_is_raw_q4_witness :
    ∃ res : Results, compute_results TEST_ANSWERS = Except.ok res ∧
      (∀ v : ℤ, ("q4", some v) ∈ TEST_ANSWERS → res.ai_adoption = v) ∧
      ((∀ p ∈ TEST_ANSWERS, p.1 ≠ "q4") → res.ai_adoption = 0) :=
  C5_adoption_is_raw_q4 TEST_ANSWERS (by decide) (by decide) (by decide)

/-- C10: on every complete AnswerSet with keys q1..q10 and integer
values in [0,100], the two duplicated scoring implementations agree:
`compute_results` returns `ai_ready` equal to `calc_ready`, and
`reduction_pct` equal to `calc_reduction(ai_ready, ai_adoption)` rounded
to one decimal place. -/
theorem C10_implementations_agree (answers : AnswerSet)
    (hkeys : (answers.map Prod.fst).Perm
      ["q1", "q2", "q3", "q4", "q5", "q6", "q7", "q8", "q9", "q10"])
    (hvals : ∀ p ∈ answers, ∃ n : ℤ, p.2 = some n ∧ 0 ≤ n ∧ n ≤ 100) :
    ∃ res : Results, compute_results answers = Except.ok res ∧
      calc_ready answers = Except.ok res.ai_ready ∧
      res.reduction_pct = pyRound1 (calc_reduction res.ai_ready res.ai_adoption) := by
  have hnd : (answers.map Prod.fst).Nodup := hkeys.nodup_iff.2 (by decide)
  have hlen : answers.length = 10 := by
    have h := hkeys.length_eq
    rw [List.length_map] at h
    simpa using h
  have hsome : ∀ p ∈ answers, p.2 ≠ none := by
    intro p hp
    rcases hvals p hp with ⟨n, hn, _⟩
    rw [hn]
    exact fun h => Option.noConfusion h
  have hne : answers ≠ [] := by
    intro h
    rw [h] at hlen
    simp at hlen
  have hflen : (((answers.map Prod.snd).filterMap id).length : ℚ) = 10 := by
    rw [length_filterMap_id (fun x hx => by
      rcases List.mem_map.1 hx with ⟨p, hp, he⟩
      rw [← he]; exact hsome p hp), List.length_map, hlen]
    norm_num
  rw [compute_results_eq answers hne hsome]
  refine ⟨_, rfl, ?_, rfl⟩
  rw [calc_ready_complete answers hnd hlen hsome]
  show Except.ok (roundHalfEven (answersMean answers)) = Except.ok (roundHalfEven _)
  congr 1
  unfold answersMean
  rw [hflen]

/-- Witness for C10 at the concrete test answer set. -/
theorem C10_implementations_agree_witness :
    ∃ res : Results, compute_results TEST_ANSWERS = Except.ok res ∧
      calc_ready TEST_ANSWERS = Except.ok res.ai_ready ∧
      res.reduction_pct = pyRound1 (calc_reduction res.ai_ready res.ai_adoption) :=
  C10_implementations_agree TEST_ANSWERS (by decide) (by simp [TEST_ANSWERS])

-- -------------------------------------------------------------------
-- C7 : submission retry behaviour
-- -------------------------------------------------------------------

/-- C7 counterexample: with an always-failing destination exactly 3
attempts are made, but the only backoff sleeps performed between
attempts are 1s and 2s — no 4-second sleep ever occurs, because the
third failure raises instead of sleeping. -/
theorem C7_counterexample :
    append_response_to_sheet true (fun _ => Except.error "boom") =
      Except.ok ⟨3, [1, 2], SubmitOutcome.persistenceFailed
        "Google Sheets への書き込みに失敗しました。" "boom"⟩ ∧
    ([1, 2] : List ℕ) ≠ [1, 2, 4] ∧ (4 : ℕ) ∉ ([1, 2] : List ℕ) := by
  refine ⟨rfl, by decide, by decide⟩

/-- C7 (amended): `append_response_to_sheet` attempts the append at most
3 times, sleeping 2^(k−1) seconds after each failed non-final attempt k —
so the sleeps actually performed between attempts are 1s and 2s (the
4-second value is computed but never slept, since the third failure
raises immediately).  If the destination fails twice then succeeds, the
submission succeeds after exactly 3 attempts; if it always fails,
exactly 3 attempts are made, each non-final failure is swallowed, and
PersistenceFailed (a RuntimeError) wrapping the final attempt's cause is
raised. -/
theorem C7_retry_behaviour (dest : ℕ → Except String Unit) (c1 c2 c3 : String)
    (h1 : dest 1 = Except.error c1) (h2 : dest 2 = Except.error c2) :
    (dest 3 = Except.ok () →
      append_response_to_sheet true dest =
        Except.ok ⟨3, [1, 2], SubmitOutcome.success⟩) ∧
    (dest 3 = Except.error c3 →
      append_response_to_sheet true dest =
        Except.ok ⟨3, [1, 2], SubmitOutcome.persistenceFailed
          "Google Sheets への書き込みに失敗しました。" c3⟩) := by
  have hstep : append_response_to_sheet true dest =
      Except.ok (sheetRetryLoop dest 3 [1, 2, 3] 0 []) := rfl
  constructor <;> intro h3 <;> rw [hstep] <;>
    simp only [sheetRetryLoop, h1, h2, h3] <;> norm_num

/-- A destination that fails on the first two attempts and then succeeds. -/
def FLAKY_DEST : ℕ → Except String Unit := fun attempt =>
  if attempt ≤ 2 then Except.error "APIError" else Except.ok ()

/-- Witness for C7 (amended) with the fails-twice-then-succeeds destination. -/
theorem C7_retry_behaviour_witness :
    (FLAKY_DEST 3 = Except.ok () →
      append_response_to_sheet true FLAKY_DEST =
        Except.ok ⟨3, [1, 2], SubmitOutcome.success⟩) ∧
    (FLAKY_DEST 3 = Except.error "APIError" →
      append_response_to_sheet true FLAKY_DEST =
        Except.ok ⟨3, [1, 2], SubmitOutcome.persistenceFailed
          "Google Sheets への書き込みに失敗しました。" "APIError"⟩) :=
  C7_retry_behaviour FLAKY_DEST "APIError" "APIError" "APIError" rfl rfl

-- -------------------------------------------------------------------
-- C9 : category aggregation
-- -------------------------------------------------------------------

/-- The category list accumulated by the grouping loop only ever holds
categories contributed by an answered question (or ones already in the
initial accumulator). -/
theorem categoryStep_order_sub (answers : AnswerSet) :
    ∀ (qs : List Question) (acc : List (String × List ℤ) × List String) (c : String),
      c ∈ (qs.foldl (categoryStep answers) acc).2 →
      c ∈ acc.2 ∨ ∃ q ∈ qs, questionCategory q = c ∧ (dictGet answers q.id).isSome
  | [], _, _, h => Or.inl h
  | q :: qs, acc, c, h => by
    rw [List.foldl_cons] at h
    rcases categoryStep_order_sub answers qs (categoryStep answers acc q) c h with
      h' | ⟨q', hq', hc, hs⟩
    · simp only [categoryStep] at h'
      cases hg : dictGet answers q.id with
      | none =>
        rw [hg] at h'
        exact Or.inl h'
      | some v =>
        rw [hg] at h'
        simp only [] at h'
        by_cases hfind : (acc.1.find? (fun p => p.1 == questionCategory q)).isSome = true
        · rw [if_pos hfind] at h'
          exact Or.inl h'
        · rw [if_neg hfind] at h'
          rcases List.mem_append.1 h' with h'' | h''
          · exact Or.inl h''
          · right
            refine ⟨q, List.mem_cons_self _ _, (List.mem_singleton.1 h'').symm, ?_⟩
            rw [hg]
            rfl
    · exact Or.inr ⟨q', List.mem_cons_of_mem _ hq', hc, hs⟩

/-- The `{A, A, B}` questions of the spec's literal aggregation case. -/
def ABQ : List Question :=
  [⟨"q1", 1, "question 1", "A"⟩, ⟨"q2", 2, "question 2", "A"⟩,
   ⟨"q3", 3, "question 3", "B"⟩]

/-- The `{80, 60, 40}` answers of the spec's literal aggregation case. -/
def ABA : AnswerSet := [("q1", some 80), ("q2", some 60), ("q3", some 40)]

/-- Two questions whose categories merge under the alias table. -/
def ALIASQ : List Question :=
  [⟨"q1", 1, "question 1", "データ活用志向"⟩, ⟨"q2", 2, "question 2", "データ活用"⟩]

/-- Answers 80 and 60 for the alias-merge case. -/
def ALIASA : AnswerSet := [("q1", some 80), ("q2", some 60)]

theorem build_AB_eval : build_category_scores ABQ ABA = [("A", 70), ("B", 40)] := by
  have hst : ABQ.foldl (categoryStep ABA) ([], []) =
      ([("A", [80, 60]), ("B", [40])], ["A", "B"]) := by decide
  simp only [build_category_scores, hst]
  have hA : List.find? (fun p => p.1 == "A") [("A", [(80 : ℤ), 60]), ("B", [40])] =
      some ("A", [80, 60]) := by decide
  have hB : List.find? (fun p => p.1 == "B") [("A", [(80 : ℤ), 60]), ("B", [40])] =
      some ("B", [40]) := by decide
  simp only [List.filterMap_cons, List.filterMap_nil, hA, hB, List.sum_cons,
    List.sum_nil, List.length_cons, List.length_nil]
  norm_num [roundHalfEven]
  decide

theorem build_alias_eval : build_category_scores ALIASQ ALIASA = [("データ活用", 70)] := by
  have hst : ALIASQ.foldl (categoryStep ALIASA) ([], []) =
      ([("データ活用", [80, 60])], ["データ活用"]) := by decide
  simp only [build_category_scores, hst]
  have hD : List.find? (fun p => p.1 == "データ活用") [("データ活用", [(80 : ℤ), 60])] =
      some ("データ活用", [80, 60]) := by decide
  simp only [List.filterMap_cons, List.filterMap_nil, hD, List.sum_cons,
    List.sum_nil, List.length_cons, List.length_nil]
  norm_num [roundHalfEven]
  decide

/-- C9: the aggregator groups answered questions by category after the
alias table, preserves first-seen category order, rounds each group's
mean, and omits categories with no contributing answer — in particular
questions tagged `{A, A, B}` with answers `{80, 60, 40}` yield A → 70
then B → 40, and every category appearing in the output comes from some
answered question. -/
theorem C9_category_aggregation (questions : List Question) (answers : AnswerSet)
    (c : String) (s : ℤ) (hmem : (c, s) ∈ build_category_scores questions answers) :
    build_category_scores ABQ ABA = [("A", 70), ("B", 40)] ∧
    build_category_scores ALIASQ ALIASA = [("データ活用", 70)] ∧
    ∃ q ∈ questions, questionCategory q = c ∧ (dictGet answers q.id).isSome := by
  refine ⟨build_AB_eval, build_alias_eval, ?_⟩
  simp only [build_category_scores] at hmem
  rcases List.mem_filterMap.1 hmem with ⟨c', hc', hf⟩
  have hcc : c' = c := by
    rcases hfind : (questions.foldl (categoryStep answers) ([], [])).1.find?
        (fun p => p.1 == c') with _ | p
    · rw [hfind] at hf
      exact absurd hf (by simp)
    · rw [hfind] at hf
      simp only [] at hf
      by_cases hemp : p.2 = []
      · rw [if_pos hemp] at hf
        exact absurd hf (by simp)
      · rw [if_neg hemp] at hf
        exact (Prod.mk.injEq _ _ _ _ ▸ Option.some.inj hf).1
  subst hcc
  rcases categoryStep_order_sub answers questions ([], []) c' hc' with h | h
  · cases h
  · exact h

/-- Witness for C9 at the literal `{A, A, B}` instance, category A. -/
theorem C9_category_aggregation_witness :
    build_category_scores ABQ ABA = [("A", 70), ("B", 40)] ∧
    build_category_scores ALIASQ ALIASA = [("データ活用", 70)] ∧
    ∃ q ∈ ABQ, questionCategory q = "A" ∧ (dictGet ABA q.id).isSome :=
  C9_category_aggregation ABQ ABA "A" 70 (by rw [build_AB_eval]; decide)
